import Mathlib

/-!
Verification of the process-supervision and graceful-lifecycle subsystem of the
node-logging service. The definitions below are a shallow embedding of
src/cluster.js, src/server.js and src/routes/healthRoutes.js: pure functions over
explicit state, with wall-clock instants as natural numbers of milliseconds.
-/

namespace NodeLogging

/-! ## Cluster state and the primary's worker-exit handler (src/cluster.js) -/

/-- Embeds the `clusterState` object of src/cluster.js (lines 17-21).
`workerRestarts` embeds the JS `Map` from worker id to the list of restart
instants as an association list. -/
structure ClusterState where
  isShuttingDown : Bool
  workerRestarts : List (Nat × List Nat)
  maxRestartsPerMinute : Nat
deriving Repr, DecidableEq

/-- Embeds `clusterState.workerRestarts.get(id) || []`: lookup of the binding
for `k`, with the empty list as default.  (The map is only ever built through
`mapSet`, so keys are unique as in the JS `Map`.) -/
def mapGetD : List (Nat × List Nat) → Nat → List Nat
  | [], _ => []
  | p :: rest, k => if p.1 = k then p.2 else mapGetD rest k

/-- Embeds `clusterState.workerRestarts.set(id, v)`: replace the binding for
`k` in place if present (JS `Map.set` keeps the original insertion position),
otherwise append it. -/
def mapSet : List (Nat × List Nat) → Nat → List Nat → List (Nat × List Nat)
  | [], k, v => [(k, v)]
  | p :: rest, k, v => if p.1 = k then (k, v) :: rest else p :: mapSet rest k v

/-- Embeds the primary's `cluster.on('exit', ...)` handler, src/cluster.js
lines 41-75.  `workerId` is the id of the worker that exited and `now` the
current instant (`Date.now()`).  `exitCode` and `signal` are the further
arguments the handler receives; the handler uses them only inside its log
calls, never in a branch.  Returns the updated cluster state and whether a
replacement worker was forked.  If shutting down the handler returns at once;
otherwise it filters the id's restart history to the instants less than
60000 ms old, refuses to fork when that count has reached
`maxRestartsPerMinute` (leaving the stored history unchanged), and otherwise
stores the filtered history with `now` appended and forks a replacement. -/
def clusterOnExit (st : ClusterState) (workerId : Nat) (now : Nat)
    (_exitCode : Nat) (_signal : Nat) : ClusterState × Bool :=
  if st.isShuttingDown then (st, false)
  else
    let restarts := mapGetD st.workerRestarts workerId
    let recentRestarts := restarts.filter (fun time => decide (now - time < 60000))
    if recentRestarts.length ≥ st.maxRestartsPerMinute then
      (st, false)
    else
      ({ st with workerRestarts := mapSet st.workerRestarts workerId (recentRestarts ++ [now]) },
       true)

/-- Feeds a sequence of crash-exit events, all carrying the same worker id, to
the exit handler, threading the cluster state; returns how many of them led to
a fork.  (The handler's decision depends only on the id and instant of each
event; exit code and signal are passed as 1 and 0.) -/
def sameIdExitForks (st : ClusterState) (w : Nat) : List Nat → Nat
  | [] => 0
  | t :: ts =>
    (if (clusterOnExit st w t 1 0).2 then 1 else 0) +
      sameIdExitForks (clusterOnExit st w t 1 0).1 w ts

/-- The pruned restart history the exit handler computes for worker `w` at
instant `now`: the stored history filtered to the instants less than 60000 ms
old. -/
def recentOf (st : ClusterState) (w now : Nat) : List Nat :=
  (mapGetD st.workerRestarts w).filter (fun u => decide (now - u < 60000))

/-! ## The supervisor with Node's fresh worker ids (src/cluster.js forkWorker) -/

/-- Supervisor-level state: the cluster state, the id Node's cluster module
will give to the next forked worker (Node assigns each new worker a fresh
sequential id, starting at 1), and the ids of the live workers. -/
structure Supervisor where
  cs : ClusterState
  nextId : Nat
  live : List Nat
deriving Repr, DecidableEq

/-- Embeds `forkWorker()` (src/cluster.js lines 209-239) as seen by the
supervisor's bookkeeping: `cluster.fork()` creates a worker carrying the next
sequential id.  The heartbeat watchdog the function installs does not touch
the cluster state and is not modelled here. -/
def forkWorker (s : Supervisor) : Supervisor × Nat :=
  ({ s with nextId := s.nextId + 1, live := s.live ++ [s.nextId] }, s.nextId)

/-- One crash-exit of live worker `w` at instant `now`: the worker leaves the
live set and the `cluster.on('exit')` handler runs; when the handler decides
to fork, the replacement is created by `forkWorker`, so it carries a fresh id.
Returns the new supervisor state and whether a replacement was forked. -/
def supervisorCrashExit (s : Supervisor) (w : Nat) (now : Nat) : Supervisor × Bool :=
  let r := clusterOnExit s.cs w now 1 0
  let s2 : Supervisor := { cs := r.1, nextId := s.nextId, live := s.live.erase w }
  if r.2 then ((forkWorker s2).1, true) else (s2, false)

/-- Repeatedly crashes the most recently created live worker, at the given
instants; returns how many respawns occurred. -/
def crashNewestLoop (s : Supervisor) : List Nat → Nat
  | [] => 0
  | t :: ts =>
    match s.live.getLast? with
    | none => 0
    | some w =>
      let r := supervisorCrashExit s w t
      (if r.2 then 1 else 0) + crashNewestLoop r.1 ts

/-! ## Timers: poll ticks -/

/-- First firing instant, measured from the moment a `setInterval(f, step)` is
created, of a tick at or after instant `t`: ticks occur at `step`, `2*step`,
dots; the result is the smallest positive multiple of `step` that is `≥ t`. -/
def firstTickAtOrAfter (step t : Nat) : Nat := step * max 1 ((t + step - 1) / step)

/-! ## Primary graceful shutdown and startup errors (src/cluster.js, src/server.js) -/

/-- Embeds the control part of the primary's gracefulShutdown, src/cluster.js
lines 108-125: if already shutting down, return silently (nothing is logged);
otherwise set `isShuttingDown` and send a `shutdown` message to every live
worker.  Result: (state after, ids of workers messaged, started a sequence?). -/
def primaryGracefulShutdown (st : ClusterState) (live : List Nat) :
    ClusterState × List Nat × Bool :=
  if st.isShuttingDown then (st, [], false)
  else ({ st with isShuttingDown := true }, live, true)

/-- Embeds the wait part of the primary's gracefulShutdown, src/cluster.js
lines 127-142: a 500 ms poll interval calls `process.exit(0)` once the live
worker count is zero; a timer calls `process.exit(1)` at `shutdownTimeout`
(default 30000 when the env variable is unset).  The interval is created
before the timer, so at a tie the poll callback runs first.  `allExitedAt` is
the instant, from the trigger, at which the live count reaches zero (`none`:
it never does).  Result: (exit instant, exit code). -/
def primaryShutdownOutcome (shutdownTimeout : Nat) (allExitedAt : Option Nat) : Nat × Nat :=
  match allExitedAt with
  | none => (shutdownTimeout, 1)
  | some tz =>
    if firstTickAtOrAfter 500 tz ≤ shutdownTimeout then (firstTickAtOrAfter 500 tz, 0)
    else (shutdownTimeout, 1)

/-- The error kinds the worker's HTTP server can report to `server.on('error')`. -/
inductive ServerError where
  | addrInUse
  | other
deriving Repr, DecidableEq

/-- Embeds `server.on('error', ...)`, src/server.js lines 129-138: an
`EADDRINUSE` error logs and calls `process.exit(1)`; any other error is
re-thrown and causes no exit here.  Result: the exit code, if the handler
exits the process. -/
def serverOnError : ServerError → Option Nat
  | .addrInUse => some 1
  | .other => none

/-! ## Rolling restart (src/cluster.js SIGUSR2 handler) -/

/-- Events observable during a rolling restart. -/
inductive RollEvent where
  | forkNew (newId : Nat)
  | listening (newId : Nat)
  | disconnectOld (oldId : Nat)
  | exitOld (oldId : Nat)
deriving Repr, DecidableEq

def RollEvent.isFork : RollEvent → Bool
  | .forkNew _ => true
  | _ => false

def RollEvent.isListen : RollEvent → Bool
  | .listening _ => true
  | _ => false

def RollEvent.isDisconnect : RollEvent → Bool
  | .disconnectOld _ => true
  | _ => false

def RollEvent.isExit : RollEvent → Bool
  | .exitOld _ => true
  | _ => false

def RollEvent.exitId : RollEvent → Option Nat
  | .exitOld w => some w
  | _ => none

def RollEvent.disconnectId : RollEvent → Option Nat
  | .disconnectOld w => some w
  | _ => none

/-- Embeds `restartNext` (src/cluster.js lines 153-181) as the event trace of
one rolling restart over the snapshot of worker slots (`none`: the slot was
empty when reached, so it is skipped).  For each present old worker the code
forks a new worker; the new worker's `listening` callback disconnects the old
worker; the old worker's `exit` callback schedules the next index.
`cluster.fork` assigns sequential fresh ids starting from `nextId`. -/
def rollingTrace : List (Option Nat) → Nat → List RollEvent
  | [], _ => []
  | none :: rest, nextId => rollingTrace rest nextId
  | some oldId :: rest, nextId =>
    .forkNew nextId :: .listening nextId :: .disconnectOld oldId :: .exitOld oldId ::
      rollingTrace rest (nextId + 1)

/-- Embeds `process.on('SIGUSR2', ...)`, src/cluster.js lines 149-182.  The
handler consults no in-progress flag and no shutdown flag: on every delivery
it logs at info level and starts `restartNext(0)` over the current worker
list.  Result: the rolling trace it starts, and whether anything was logged at
warning level (the handler contains no warning-level log call). -/
def sigusr2Handler (workers : List (Option Nat)) (nextId : Nat) : List RollEvent × Bool :=
  (rollingTrace workers nextId, false)

/-- Total forks caused by rolling one worker slot while `isShuttingDown` is
false: `restartNext` forks the replacement, and the old worker's exit (caused
by `worker.disconnect()`) is then delivered to the same `cluster.on('exit')`
handler as any crash exit, which may fork a second replacement. -/
def forksDuringRollingStep (st : ClusterState) (oldId now : Nat) : Nat :=
  1 + (if (clusterOnExit st oldId now 0 0).2 then 1 else 0)

/-! ## Worker graceful shutdown and connection drain (src/server.js) -/

/-- Embeds the `serverState.isShuttingDown` flag of src/server.js (lines
19-22). -/
structure ServerState where
  isShuttingDown : Bool
deriving Repr, DecidableEq

/-- Embeds the duplicate-trigger guard at the head of the worker's
gracefulShutdown, src/server.js lines 35-45: a trigger while already shutting
down logs `Shutdown already in progress` at warning level and returns without
starting anything; otherwise the flag is set and the drain sequence starts.
Result: (state after, started a drain sequence?, logged that warning?). -/
def gracefulShutdownGuard (st : ServerState) : ServerState × Bool × Bool :=
  if st.isShuttingDown then (st, false, true)
  else ({ isShuttingDown := true }, true, false)

/-- Number of drain sequences started by `n` successive shutdown triggers
delivered to a worker. -/
def workerShutdownSequences : ServerState → Nat → Nat
  | _, 0 => 0
  | st, n + 1 =>
    (if (gracefulShutdownGuard st).2.1 then 1 else 0) +
      workerShutdownSequences (gracefulShutdownGuard st).1 n

/-- Timed trace of one worker's graceful shutdown, instants measured from the
trigger. -/
structure DrainTrace where
  drainingAt : Nat
  closingAt : Nat
  exitAt : Nat
  exitCode : Nat
deriving Repr, DecidableEq

/-- Instant at which one tracked connection is closed.  The connection is
`end`ed at `drainDelay`; `some c` describes a connection that closes itself at
instant `c`, and the per-connection fallback timer set at `drainDelay`
destroys it 5000 ms later if it has not closed by then (src/server.js lines
74-82); `none` describes a connection that never closes itself. -/
def connClosedAt (drainDelay : Nat) : Option Nat → Nat
  | some c => min c (drainDelay + 5000)
  | none => drainDelay + 5000

/-- Instant by which every tracked connection is closed (0 when none are
tracked). -/
def allClosedAt (drainDelay : Nat) (conns : List (Option Nat)) : Nat :=
  (conns.map (connClosedAt drainDelay)).foldr max 0

/-- Embeds the worker's gracefulShutdown, src/server.js lines 35-94, as a
timed trace with the trigger at instant 0.  `markNotReady()` runs at 0; after
`drainDelay` (the awaited drain pause) the code closes the server, ends every
tracked connection (with the 5000 ms destroy fallback each), arms the force
timer that calls `process.exit(1)` `shutdownTimeout` later, and starts a
100 ms poll that calls `process.exit(0)` once the tracked set is empty.  The
force timer is created before the poll interval, so at a tie the force exit
wins. -/
def workerDrainTrace (drainDelay shutdownTimeout : Nat) (conns : List (Option Nat)) :
    DrainTrace :=
  let closedAt := allClosedAt drainDelay conns
  let detectAt := drainDelay + firstTickAtOrAfter 100 (closedAt - drainDelay)
  let forceAt := drainDelay + shutdownTimeout
  if forceAt ≤ detectAt then
    { drainingAt := 0, closingAt := drainDelay, exitAt := forceAt, exitCode := 1 }
  else
    { drainingAt := 0, closingAt := drainDelay, exitAt := detectAt, exitCode := 0 }

/-! ## Health state and probes (src/routes/healthRoutes.js) -/

/-- Status of one named health check. -/
inductive CheckStatus where
  | healthy
  | unhealthy
deriving Repr, DecidableEq

/-- Embeds the `healthState` booleans of src/routes/healthRoutes.js lines
13-22. -/
structure HealthState where
  isReady : Bool
  isHealthy : Bool
deriving Repr, DecidableEq

/-- Embeds `markReady()` (src/routes/healthRoutes.js lines 31-35). -/
def markReady (hs : HealthState) : HealthState := { hs with isReady := true }

/-- Embeds `markNotReady()` (src/routes/healthRoutes.js lines 40-44). -/
def markNotReady (hs : HealthState) : HealthState := { hs with isReady := false }

/-- Measurements a probe invocation observes: heap usage for the memory check
and the measured event-loop lag in ms. -/
structure HealthProbeInput where
  heapUsed : Nat
  heapTotal : Nat
  eventLoopLag : Nat
deriving Repr, DecidableEq

/-- The three named checks of runHealthChecks. -/
structure HealthChecks where
  memory : CheckStatus
  eventLoop : CheckStatus
  database : CheckStatus
deriving Repr, DecidableEq

/-- Embeds `runHealthChecks()` (src/routes/healthRoutes.js lines 62-106): the
memory check holds when heapUsed/heapTotal*100 is below the 90 percent
threshold (embedded without division as `100*heapUsed < 90*heapTotal`); the
event-loop check holds when the measured lag is below 500 ms; the simulated
database (dependency) check always reports healthy.  Returns the checks and
the recomputed `isHealthy`, the conjunction of all check results. -/
def runHealthChecks (i : HealthProbeInput) : HealthChecks × Bool :=
  let memoryHealthy := decide (100 * i.heapUsed < 90 * i.heapTotal)
  let eventLoopHealthy := decide (i.eventLoopLag < 500)
  let checks : HealthChecks :=
    { memory := if memoryHealthy then .healthy else .unhealthy,
      eventLoop := if eventLoopHealthy then .healthy else .unhealthy,
      database := .healthy }
  (checks,
   (checks.memory == .healthy) && (checks.eventLoop == .healthy) &&
     (checks.database == .healthy))

/-- Response of the readiness route: HTTP status and whether the body carries
the per-check details. -/
structure ReadyResponse where
  status : Nat
  hasChecks : Bool
deriving Repr, DecidableEq

/-- Embeds `GET /health/ready` (src/routes/healthRoutes.js lines 144-160):
503 without check details when `isReady` is false; otherwise the checks are
recomputed, `healthState.isHealthy` is refreshed by that run, and the response
is 200/503 with details according to the recomputed value. -/
def readyProbe (hs : HealthState) (i : HealthProbeInput) : ReadyResponse :=
  if hs.isReady = false then { status := 503, hasChecks := false }
  else { status := if (runHealthChecks i).2 then 200 else 503, hasChecks := true }

/-! ## Concrete states used by witnesses -/

/-- Concrete shutting-down cluster state with a nonempty restart history,
used to witness C8. -/
def shuttingDownState : ClusterState :=
  { isShuttingDown := true, workerRestarts := [(1, [5])], maxRestartsPerMinute := 5 }

/-- Initial supervisor state for the crash-loop simulation: one live worker
with id 1, empty restart history, next fresh id 2. -/
def crashLoopStart : Supervisor :=
  { cs := { isShuttingDown := false, workerRestarts := [], maxRestartsPerMinute := 5 },
    nextId := 2, live := [1] }

/-- Concrete governor state with an existing recent restart record, used to
witness the general part of C2. -/
def c2WitnessSt : ClusterState :=
  { isShuttingDown := false, workerRestarts := [(7, [100])], maxRestartsPerMinute := 5 }

/-- Concrete fresh governor state used to witness the scenario part of C2. -/
def c2WitnessSt0 : ClusterState :=
  { isShuttingDown := false, workerRestarts := [], maxRestartsPerMinute := 5 }

end NodeLogging


namespace NodeLogging

/-! ## Helper lemmas about the restart-history map and the exit handler -/

theorem mapGetD_mapSet_self (m : List (Nat × List Nat)) (k : Nat) (v : List Nat) :
    mapGetD (mapSet m k v) k = v := by
  induction m with
  | nil => simp [mapGetD, mapSet]
  | cons p rest ih => by_cases hp : p.1 = k <;> simp [mapGetD, mapSet, hp, ih]

theorem filter_recent_of_all (now : Nat) (ts : List Nat)
    (h : ∀ t ∈ ts, now - t < 60000) :
    ts.filter (fun t => decide (now - t < 60000)) = ts :=
  List.filter_eq_self.mpr (by intro a ha; simpa using h a ha)

/-- When the pruned history is below the threshold, the exit handler stores
the pruned history with `now` appended and forks. -/
theorem clusterOnExit_allow (st : ClusterState) (w now c sg : Nat)
    (hs : st.isShuttingDown = false)
    (hlen : (recentOf st w now).length < st.maxRestartsPerMinute) :
    clusterOnExit st w now c sg =
      ({ st with workerRestarts := mapSet st.workerRestarts w (recentOf st w now ++ [now]) },
       true) := by
  unfold recentOf at hlen
  simp only [clusterOnExit, hs, Bool.false_eq_true, if_false, recentOf]
  rw [if_neg (by omega)]

/-- When the pruned history has reached the threshold, the exit handler leaves
the state unchanged and does not fork. -/
theorem clusterOnExit_deny (st : ClusterState) (w now c sg : Nat)
    (hs : st.isShuttingDown = false)
    (hlen : st.maxRestartsPerMinute ≤ (recentOf st w now).length) :
    clusterOnExit st w now c sg = (st, false) := by
  unfold recentOf at hlen
  simp only [clusterOnExit, hs, Bool.false_eq_true, if_false]
  rw [if_pos (by omega)]

/-- When every instant in play lies within one 60000 ms window of every other,
a run of same-id crash exits forks exactly until the stored history reaches
the threshold of 5: the number of forks is `min ts.length (5 - hist.length)`. -/
theorem sameIdExitForks_count : ∀ (ts : List Nat) (st : ClusterState) (w : Nat)
    (hist : List Nat), st.isShuttingDown = false → st.maxRestartsPerMinute = 5 →
    mapGetD st.workerRestarts w = hist →
    (∀ a ∈ hist ++ ts, ∀ b ∈ hist ++ ts, b - a < 60000) →
    sameIdExitForks st w ts = min ts.length (5 - hist.length) := by
  intro ts
  induction ts with
  | nil => intro st w hist _ _ _ _; simp [sameIdExitForks]
  | cons t rest ih =>
    intro st w hist hs hm hh hwin
    have hfilter : recentOf st w t = hist := by
      unfold recentOf
      rw [hh]
      exact filter_recent_of_all t hist
        (fun u hu => hwin u (by simp [hu]) t (by simp))
    by_cases hl : hist.length < 5
    · have hstep := clusterOnExit_allow st w t 1 0 hs (by rw [hfilter]; omega)
      rw [hfilter] at hstep
      have step1 : sameIdExitForks st w (t :: rest) =
          1 + sameIdExitForks (clusterOnExit st w t 1 0).1 w rest := by
        simp [sameIdExitForks, hstep]
      rw [step1, hstep]
      have ihr := ih ⟨st.isShuttingDown, mapSet st.workerRestarts w (hist ++ [t]),
          st.maxRestartsPerMinute⟩ w (hist ++ [t]) hs hm
        (mapGetD_mapSet_self st.workerRestarts w (hist ++ [t]))
        (by
          intro a ha b hb
          apply hwin <;> simp [List.mem_append, List.mem_cons] at * <;> tauto)
      rw [ihr]
      simp only [List.length_append, List.length_cons, List.length_nil]
      omega
    · have hstep := clusterOnExit_deny st w t 1 0 hs (by rw [hfilter]; omega)
      have step1 : sameIdExitForks st w (t :: rest) =
          sameIdExitForks (clusterOnExit st w t 1 0).1 w rest := by
        simp [sameIdExitForks, hstep]
      rw [step1, hstep]
      have ihr := ih st w hist hs hm hh
        (by
          intro a ha b hb
          apply hwin <;> simp [List.mem_append, List.mem_cons] at * <;> tauto)
      rw [ihr]
      simp only [List.length_cons]
      omega

/-- Spec claim C8: once `ClusterState.isShuttingDown` is true, a worker-exit
event leads to no fork and leaves the cluster state, in particular the restart
history, unchanged. -/
theorem c8_no_respawn_when_shutting_down (st : ClusterState) (w now c sg : Nat)
    (h : st.isShuttingDown = true) :
    clusterOnExit st w now c sg = (st, false) := by
  simp [clusterOnExit, h]

/-- Witness for C8 at a concrete state: a shutting-down cluster state with a
nonempty restart history is returned unchanged and no fork happens. -/
theorem c8_no_respawn_when_shutting_down_witness :
    shuttingDownState.isShuttingDown = true ∧
    clusterOnExit shuttingDownState 1 100 1 0 = (shuttingDownState, false) :=
  ⟨rfl, c8_no_respawn_when_shutting_down shuttingDownState 1 100 1 0 rfl⟩


/-! ## C1: restart-history identity across respawns -/

/-- Spec claim C1 fails on the code: restart history is NOT kept per logical
worker slot across respawns.  `cluster.fork` gives the replacement a fresh id,
so after worker 1 crashes at instant 0 the replacement is worker 2, whose
history under its own id is empty, while the crashed id 1 keeps the only
record; a crash loop of 6 crashes within 10 seconds therefore produces 6
respawns, one per crash, instead of stopping at the governor threshold of 5 —
the rate limit of src/cluster.js lines 54-74 can never trigger. -/
theorem c1_restart_history_not_reused :
    (supervisorCrashExit crashLoopStart 1 0).2 = true ∧
    (supervisorCrashExit crashLoopStart 1 0).1.live = [2] ∧
    mapGetD (supervisorCrashExit crashLoopStart 1 0).1.cs.workerRestarts 2 = [] ∧
    mapGetD (supervisorCrashExit crashLoopStart 1 0).1.cs.workerRestarts 1 = [0] ∧
    crashNewestLoop crashLoopStart [0, 2000, 4000, 6000, 8000, 10000] = 6 := by
  decide

/-! ## C2: the restart-rate governor -/

/-- Spec claim C2: on a crash-exit with `isShuttingDown` false the handler
prunes the worker id's history to the instants less than 60000 ms old, forks
iff the pruned count is under `maxRestartsPerMinute` (appending the current
instant to the stored history when it forks, leaving the state unchanged when
it refuses), and 6 same-id crash exits within 10 seconds starting from an
empty history produce exactly 5 forks, the 6th producing none. -/
theorem c2_rate_governor (st : ClusterState) (w now c sg : Nat)
    (hs : st.isShuttingDown = false)
    (st0 : ClusterState) (w0 t1 t2 t3 t4 t5 t6 : Nat)
    (hs0 : st0.isShuttingDown = false) (hm0 : st0.maxRestartsPerMinute = 5)
    (hempty : mapGetD st0.workerRestarts w0 = [])
    (h12 : t1 ≤ t2) (h23 : t2 ≤ t3) (h34 : t3 ≤ t4) (h45 : t4 ≤ t5) (h56 : t5 ≤ t6)
    (hwin : t6 ≤ t1 + 10000) :
    ((clusterOnExit st w now c sg).2 = true ↔
        (recentOf st w now).length < st.maxRestartsPerMinute) ∧
    ((clusterOnExit st w now c sg).2 = true →
        mapGetD (clusterOnExit st w now c sg).1.workerRestarts w =
          recentOf st w now ++ [now]) ∧
    ((clusterOnExit st w now c sg).2 = false → (clusterOnExit st w now c sg).1 = st) ∧
    sameIdExitForks st0 w0 [t1, t2, t3, t4, t5] = 5 ∧
    sameIdExitForks st0 w0 [t1, t2, t3, t4, t5, t6] = 5 := by
  have hall6 : ∀ a ∈ ([] : List Nat) ++ [t1, t2, t3, t4, t5, t6],
      ∀ b ∈ ([] : List Nat) ++ [t1, t2, t3, t4, t5, t6], b - a < 60000 := by
    intro a ha b hb
    simp at ha hb
    rcases ha with rfl | rfl | rfl | rfl | rfl | rfl <;>
      rcases hb with rfl | rfl | rfl | rfl | rfl | rfl <;> omega
  have hall5 : ∀ a ∈ ([] : List Nat) ++ [t1, t2, t3, t4, t5],
      ∀ b ∈ ([] : List Nat) ++ [t1, t2, t3, t4, t5], b - a < 60000 := by
    intro a ha b hb
    simp at ha hb
    rcases ha with rfl | rfl | rfl | rfl | rfl <;>
      rcases hb with rfl | rfl | rfl | rfl | rfl <;> omega
  refine ⟨?_, ?_, ?_, ?_, ?_⟩
  · constructor
    · intro h2
      by_contra hnot
      push_neg at hnot
      rw [clusterOnExit_deny st w now c sg hs hnot] at h2
      simp at h2
    · intro hlt
      rw [clusterOnExit_allow st w now c sg hs hlt]
  · intro h2
    by_cases hlt : (recentOf st w now).length < st.maxRestartsPerMinute
    · rw [clusterOnExit_allow st w now c sg hs hlt]
      exact mapGetD_mapSet_self st.workerRestarts w (recentOf st w now ++ [now])
    · rw [clusterOnExit_deny st w now c sg hs (by omega)] at h2
      simp at h2
  · intro h2
    by_cases hlt : (recentOf st w now).length < st.maxRestartsPerMinute
    · rw [clusterOnExit_allow st w now c sg hs hlt] at h2
      simp at h2
    · rw [clusterOnExit_deny st w now c sg hs (by omega)]
  · simpa using sameIdExitForks_count [t1, t2, t3, t4, t5] st0 w0 [] hs0 hm0 hempty hall5
  · simpa using sameIdExitForks_count [t1, t2, t3, t4, t5, t6] st0 w0 [] hs0 hm0 hempty hall6

/-- Witness for C2 at concrete inputs: the hypotheses hold for the concrete
states and the instants 0, 1000, ..., 5000, and the scenario conclusions
follow by applying the theorem. -/
theorem c2_rate_governor_witness :
    (c2WitnessSt.isShuttingDown = false ∧ c2WitnessSt0.isShuttingDown = false ∧
     c2WitnessSt0.maxRestartsPerMinute = 5 ∧ mapGetD c2WitnessSt0.workerRestarts 3 = [] ∧
     (0 : Nat) ≤ 1000 ∧ (1000 : Nat) ≤ 2000 ∧ (2000 : Nat) ≤ 3000 ∧
     (3000 : Nat) ≤ 4000 ∧ (4000 : Nat) ≤ 5000 ∧ (5000 : Nat) ≤ 0 + 10000) ∧
    sameIdExitForks c2WitnessSt0 3 [0, 1000, 2000, 3000, 4000] = 5 ∧
    sameIdExitForks c2WitnessSt0 3 [0, 1000, 2000, 3000, 4000, 5000] = 5 :=
  ⟨by decide,
   (c2_rate_governor c2WitnessSt 7 200 1 0 rfl c2WitnessSt0 3 0 1000 2000 3000 4000 5000
      rfl rfl rfl (by decide) (by decide) (by decide) (by decide) (by decide)
      (by decide)).2.2.2.1,
   (c2_rate_governor c2WitnessSt 7 200 1 0 rfl c2WitnessSt0 3 0 1000 2000 3000 4000 5000
      rfl rfl rfl (by decide) (by decide) (by decide) (by decide) (by decide)
      (by decide)).2.2.2.2⟩



/-! ## C3: duplicate shutdown and rolling-restart triggers -/

theorem rollingTrace_exitIds (ws : List (Option Nat)) : ∀ n : Nat,
    (rollingTrace ws n).filterMap RollEvent.exitId = ws.filterMap id := by
  induction ws with
  | nil => intro n; simp [rollingTrace]
  | cons o rest ih =>
    intro n
    cases o <;> simp [rollingTrace, RollEvent.exitId, ih]

theorem rollingTrace_disconnectIds (ws : List (Option Nat)) : ∀ n : Nat,
    (rollingTrace ws n).filterMap RollEvent.disconnectId = ws.filterMap id := by
  induction ws with
  | nil => intro n; simp [rollingTrace]
  | cons o rest ih =>
    intro n
    cases o <;> simp [rollingTrace, RollEvent.disconnectId, ih]

theorem workerShutdownSequences_stopped (n : Nat) :
    workerShutdownSequences { isShuttingDown := true } n = 0 := by
  induction n with
  | zero => rfl
  | succ n ih => simp [workerShutdownSequences, gracefulShutdownGuard, ih]

/-- Claim C3 as stated is false for the rolling-restart trigger: with one
worker slot present (a rolling restart of it being in progress), a further
SIGUSR2 delivery runs the same unguarded handler, which starts a full second
rolling sequence and logs nothing at warning level. -/
theorem c3_counterexample :
    (sigusr2Handler [some 1] 2).1 =
      [RollEvent.forkNew 2, RollEvent.listening 2, RollEvent.disconnectOld 1,
       RollEvent.exitOld 1] ∧
    (sigusr2Handler [some 1] 2).1 ≠ [] ∧
    (sigusr2Handler [some 1] 2).2 = false := by decide

/-- Amended C3: duplicate worker-level shutdown triggers are idempotent no-ops
logged at warning level (any number of successive triggers from a fresh state
produce exactly one drain sequence); duplicate primary-level shutdown triggers
are idempotent silent no-ops; rolling-restart triggers are unguarded — every
SIGUSR2 delivery starts a new full rolling sequence over the present workers
and logs no warning. -/
theorem c3_duplicate_triggers :
    (∀ st : ServerState, st.isShuttingDown = true →
        gracefulShutdownGuard st = (st, false, true)) ∧
    (∀ n : Nat, workerShutdownSequences { isShuttingDown := false } (n + 1) = 1) ∧
    (∀ (cs : ClusterState) (live : List Nat), cs.isShuttingDown = true →
        primaryGracefulShutdown cs live = (cs, [], false)) ∧
    (∀ (ws : List (Option Nat)) (k : Nat),
        (sigusr2Handler ws k).2 = false ∧
        (sigusr2Handler ws k).1.filterMap RollEvent.exitId = ws.filterMap id) := by
  refine ⟨?_, ?_, ?_, ?_⟩
  · intro st h
    simp [gracefulShutdownGuard, h]
  · intro n
    simp [workerShutdownSequences, gracefulShutdownGuard, workerShutdownSequences_stopped]
  · intro cs live h
    simp [primaryGracefulShutdown, h]
  · intro ws k
    exact ⟨rfl, rollingTrace_exitIds ws k⟩

/-- Witness for the amended C3 at concrete inputs. -/
theorem c3_duplicate_triggers_witness :
    (({ isShuttingDown := true } : ServerState).isShuttingDown = true ∧
     shuttingDownState.isShuttingDown = true) ∧
    gracefulShutdownGuard { isShuttingDown := true } =
      ({ isShuttingDown := true }, false, true) ∧
    workerShutdownSequences { isShuttingDown := false } 2 = 1 ∧
    primaryGracefulShutdown shuttingDownState [1, 2] = (shuttingDownState, [], false) ∧
    (sigusr2Handler [some 1] 2).2 = false ∧
    (sigusr2Handler [some 1] 2).1.filterMap RollEvent.exitId = [1] :=
  ⟨⟨rfl, rfl⟩,
   c3_duplicate_triggers.1 { isShuttingDown := true } rfl,
   by simpa using c3_duplicate_triggers.2.1 1,
   c3_duplicate_triggers.2.2.1 shuttingDownState [1, 2] rfl,
   (c3_duplicate_triggers.2.2.2 [some 1] 2).1,
   by simpa using (c3_duplicate_triggers.2.2.2 [some 1] 2).2⟩

/-! ## C4: drain timing with delay 200 ms and timeout 1000 ms -/

/-- Claim C4 as stated is false: with drain delay 200 ms, shutdown timeout
1000 ms and one connection that never closes itself, the forced exit happens
1200 ms after the trigger, not 1000 ms — src/server.js arms the force timer
only after awaiting the drain delay. -/
theorem c4_counterexample :
    (workerDrainTrace 200 1000 [none]).exitAt = 1200 ∧
    ¬ (workerDrainTrace 200 1000 [none]).exitAt = 1000 := by decide

/-- Amended C4: the worker transitions RUNNING→DRAINING at t=0 and
DRAINING→CLOSING at t=200 ms, and reaches forced TERMINATED at
t = 1200 ms = drainDelay + shutdownTimeout after the trigger, with a non-zero
exit status. -/
theorem c4_drain_timeline :
    workerDrainTrace 200 1000 [none] =
      { drainingAt := 0, closingAt := 200, exitAt := 1200, exitCode := 1 } := by decide

/-! ## C6: primary shutdown outcome and exit codes -/

/-- Spec claim C6: a termination signal sets `isShuttingDown`, messages every
live worker, and the primary then exits 0 iff the 500 ms poll observes a zero
live count within the 30000 ms default timeout (in particular it exits 0
whenever the workers are all gone at least one poll period before the
timeout, and exits 1 whenever they are not gone by the timeout, or never);
port-in-use at startup exits 1. -/
theorem c6_shutdown_exit_codes (st : ClusterState) (live : List Nat) (tz : Nat)
    (hs : st.isShuttingDown = false) :
    primaryGracefulShutdown st live = ({ st with isShuttingDown := true }, live, true) ∧
    ((primaryShutdownOutcome 30000 (some tz)).2 = 0 ↔
      firstTickAtOrAfter 500 tz ≤ 30000) ∧
    (tz + 500 ≤ 30000 → (primaryShutdownOutcome 30000 (some tz)).2 = 0) ∧
    (30000 < tz → (primaryShutdownOutcome 30000 (some tz)).2 = 1) ∧
    (primaryShutdownOutcome 30000 none).2 = 1 ∧
    serverOnError ServerError.addrInUse = some 1 := by
  refine ⟨by simp [primaryGracefulShutdown, hs], ?_, ?_, ?_, rfl, rfl⟩
  · simp only [primaryShutdownOutcome]
    split
    · next h => simp [h]
    · next h => simp [h]
  · intro h
    have hle : firstTickAtOrAfter 500 tz ≤ 30000 := by
      unfold firstTickAtOrAfter; omega
    simp [primaryShutdownOutcome, hle]
  · intro h
    have hgt : ¬ (firstTickAtOrAfter 500 tz ≤ 30000) := by
      unfold firstTickAtOrAfter; omega
    simp [primaryShutdownOutcome, hgt]

/-- Witness for C6 at concrete inputs: fresh cluster state, two live workers,
all workers exited 700 ms after the trigger. -/
theorem c6_shutdown_exit_codes_witness :
    c2WitnessSt0.isShuttingDown = false ∧
    primaryGracefulShutdown c2WitnessSt0 [1, 2] =
      ({ c2WitnessSt0 with isShuttingDown := true }, [1, 2], true) ∧
    (primaryShutdownOutcome 30000 (some 700)).2 = 0 ∧
    serverOnError ServerError.addrInUse = some 1 :=
  ⟨rfl,
   (c6_shutdown_exit_codes c2WitnessSt0 [1, 2] 700 rfl).1,
   (c6_shutdown_exit_codes c2WitnessSt0 [1, 2] 700 rfl).2.2.1 (by decide),
   (c6_shutdown_exit_codes c2WitnessSt0 [1, 2] 700 rfl).2.2.2.2.2⟩

/-! ## C9: the readiness probe -/

/-- Spec claim C9: `GET /health/ready` answers 200 with check details exactly
when `isReady` is true and the recomputed `isHealthy` is true, and 503
otherwise; the recomputed `isHealthy` is the conjunction of the named memory,
event-loop and database (dependency) check results. -/
theorem c9_ready_probe (hs : HealthState) (i : HealthProbeInput) :
    ((readyProbe hs i).status = 200 ↔ hs.isReady = true ∧ (runHealthChecks i).2 = true) ∧
    ((readyProbe hs i).status = 200 ∨ (readyProbe hs i).status = 503) ∧
    ((readyProbe hs i).status = 200 → (readyProbe hs i).hasChecks = true) ∧
    ((runHealthChecks i).2 = true ↔
      (runHealthChecks i).1.memory = CheckStatus.healthy ∧
      (runHealthChecks i).1.eventLoop = CheckStatus.healthy ∧
      (runHealthChecks i).1.database = CheckStatus.healthy) := by
  rcases hs with ⟨r, hprev⟩
  cases r <;> by_cases hm : 100 * i.heapUsed < 90 * i.heapTotal <;>
    by_cases he : i.eventLoopLag < 500 <;>
      simp [readyProbe, runHealthChecks, hm, he]

/-! ## C10: the exit handler is blind to the exit cause -/

/-- Spec claim C10: the decision of the primary's exit handler does not depend
on the exit code or signal of the exited worker; in particular, during a
rolling restart with `isShuttingDown` false, the old worker's
disconnect-induced exit takes the same crash-restart path, and when that
worker id is under the governor threshold the step forks two workers in
total — the rolling replacement plus the handler's extra replacement. -/
theorem c10_exit_handler_cause_blind (st : ClusterState) (w now c1 s1 c2 s2 : Nat)
    (st2 : ClusterState) (oldId tnow : Nat)
    (hs : st2.isShuttingDown = false)
    (hlen : (recentOf st2 oldId tnow).length < st2.maxRestartsPerMinute) :
    clusterOnExit st w now c1 s1 = clusterOnExit st w now c2 s2 ∧
    (clusterOnExit st2 oldId tnow 0 0).2 = true ∧
    forksDuringRollingStep st2 oldId tnow = 2 := by
  refine ⟨rfl, ?_, ?_⟩
  · rw [clusterOnExit_allow st2 oldId tnow 0 0 hs hlen]
  · unfold forksDuringRollingStep
    rw [clusterOnExit_allow st2 oldId tnow 0 0 hs hlen]
    simp

/-- Witness for C10 at concrete inputs: a fresh governor state and old worker
id 4 exiting at instant 0. -/
theorem c10_exit_handler_cause_blind_witness :
    c2WitnessSt0.isShuttingDown = false ∧
    (recentOf c2WitnessSt0 4 0).length < c2WitnessSt0.maxRestartsPerMinute ∧
    forksDuringRollingStep c2WitnessSt0 4 0 = 2 :=
  ⟨rfl, by decide,
   (c10_exit_handler_cause_blind c2WitnessSt 1 2 3 4 5 6 c2WitnessSt0 4 0 rfl
     (by decide)).2.2⟩



/-! ## C7: worker drain guarantees -/

/-- Claim C7's exit-code equivalence is false as stated: with drain delay
200 ms and shutdown timeout 1000 ms, a single tracked connection that closes
itself at t = 1150 ms closes before the force timeout at t = 1200 ms, yet the
100 ms poll only observes the empty set at t = 1200 ms, when the force timer
has already fired, so the worker exits with code 1. -/
theorem c7_counterexample :
    allClosedAt 200 [some 1150] = 1150 ∧ (1150 : Nat) < 200 + 1000 ∧
    (workerDrainTrace 200 1000 [some 1150]).exitCode = 1 := by decide

/-- Amended C7: `markNotReady` takes effect (the readiness probe answers 503)
at t=0, strictly before the instant `closingAt = drainDelay > 0` at which
connections are first forcibly affected; every tracked connection is closed
within drainDelay + shutdownTimeout of the trigger (by that instant either
all were closed or the forced exit has terminated the process); the exit code
is 0 whenever all connections close at least one 100 ms poll period before
the force timeout, and 1 whenever some connection is still open at the force
timeout. -/
theorem c7_drain_guarantees (dD sT : Nat) (conns : List (Option Nat))
    (hs : HealthState) (i : HealthProbeInput) (hdD : 0 < dD) :
    (readyProbe (markNotReady hs) i).status = 503 ∧
    (workerDrainTrace dD sT conns).drainingAt < (workerDrainTrace dD sT conns).closingAt ∧
    min (allClosedAt dD conns) (workerDrainTrace dD sT conns).exitAt ≤ dD + sT ∧
    (max (allClosedAt dD conns) dD + 100 < dD + sT →
        (workerDrainTrace dD sT conns).exitCode = 0) ∧
    (dD + sT ≤ allClosedAt dD conns → (workerDrainTrace dD sT conns).exitCode = 1) := by
  have h1 : (readyProbe (markNotReady hs) i).status = 503 := by
    simp [readyProbe, markNotReady]
  refine ⟨h1, ?_, ?_, ?_, ?_⟩
  · simp only [workerDrainTrace]
    split_ifs <;> simpa using hdD
  · simp only [workerDrainTrace]
    split_ifs with hif
    · dsimp only
      omega
    · dsimp only
      unfold firstTickAtOrAfter at hif
      omega
  · intro h
    simp only [workerDrainTrace]
    split_ifs with hif
    · exfalso
      unfold firstTickAtOrAfter at hif
      omega
    · simp
  · intro h
    simp only [workerDrainTrace]
    split_ifs with hif
    · simp
    · exfalso
      unfold firstTickAtOrAfter at hif
      omega

/-- Witness for the amended C7 at concrete inputs: drain delay 200 ms,
shutdown timeout 1000 ms, one connection closing itself at t = 50 ms. -/
theorem c7_drain_guarantees_witness :
    (0 : Nat) < 200 ∧
    (readyProbe (markNotReady { isReady := true, isHealthy := true })
        { heapUsed := 10, heapTotal := 100, eventLoopLag := 5 }).status = 503 ∧
    max (allClosedAt 200 [some 50]) 200 + 100 < 200 + 1000 ∧
    (workerDrainTrace 200 1000 [some 50]).exitCode = 0 :=
  ⟨by decide,
   (c7_drain_guarantees 200 1000 [some 50] { isReady := true, isHealthy := true }
      { heapUsed := 10, heapTotal := 100, eventLoopLag := 5 } (by decide)).1,
   by decide,
   (c7_drain_guarantees 200 1000 [some 50] { isReady := true, isHealthy := true }
      { heapUsed := 10, heapTotal := 100, eventLoopLag := 5 } (by decide)).2.2.2.1
     (by decide)⟩



/-! ## C5: rolling restart strictly serializes teardown behind readiness -/

/-- Prefix invariants of the rolling-restart trace: in every prefix, no old
worker has been disconnected before a new worker reported listening
(disconnect count ≤ listening count), no old worker exited before being
disconnected, every listening was preceded by its fork, and at most one
replacement is in flight at a time (fork count ≤ old-exit count + 1). -/
theorem rolling_prefix_counts (ws : List (Option Nat)) : ∀ (n k : Nat),
    ((rollingTrace ws n).take k).countP RollEvent.isDisconnect ≤
      ((rollingTrace ws n).take k).countP RollEvent.isListen ∧
    ((rollingTrace ws n).take k).countP RollEvent.isExit ≤
      ((rollingTrace ws n).take k).countP RollEvent.isDisconnect ∧
    ((rollingTrace ws n).take k).countP RollEvent.isListen ≤
      ((rollingTrace ws n).take k).countP RollEvent.isFork ∧
    ((rollingTrace ws n).take k).countP RollEvent.isFork ≤
      ((rollingTrace ws n).take k).countP RollEvent.isExit + 1 := by
  induction ws with
  | nil => intro n k; simp [rollingTrace]
  | cons o rest ih =>
    intro n k
    cases o with
    | none => simpa [rollingTrace] using ih n k
    | some oldId =>
      rcases k with _ | _ | _ | _ | k
      · simp [rollingTrace]
      · simp [rollingTrace, RollEvent.isFork, RollEvent.isListen,
          RollEvent.isDisconnect, RollEvent.isExit]
      · simp [rollingTrace, RollEvent.isFork, RollEvent.isListen,
          RollEvent.isDisconnect, RollEvent.isExit]
      · simp [rollingTrace, RollEvent.isFork, RollEvent.isListen,
          RollEvent.isDisconnect, RollEvent.isExit]
      · have hrec := ih (n + 1) k
        simp only [rollingTrace, List.take_succ_cons, List.countP_cons,
          RollEvent.isFork, RollEvent.isListen, RollEvent.isDisconnect,
          RollEvent.isExit] at hrec ⊢
        omega

/-- Spec claim C5: the rolling restart processes the worker-id list strictly
in order, one at a time — in every prefix of the trace, old-worker
disconnects never outnumber new-worker listening reports (teardown never
starts before readiness), exits never outnumber disconnects, listenings never
outnumber forks, and at most one replacement is in flight at a time; moreover
the disconnected old workers and the exited old workers are exactly the
present slots, in list order. -/
theorem c5_rolling_restart_serialized (ws : List (Option Nat)) (n k : Nat) :
    (((rollingTrace ws n).take k).countP RollEvent.isDisconnect ≤
       ((rollingTrace ws n).take k).countP RollEvent.isListen) ∧
    (((rollingTrace ws n).take k).countP RollEvent.isExit ≤
       ((rollingTrace ws n).take k).countP RollEvent.isDisconnect) ∧
    (((rollingTrace ws n).take k).countP RollEvent.isListen ≤
       ((rollingTrace ws n).take k).countP RollEvent.isFork) ∧
    (((rollingTrace ws n).take k).countP RollEvent.isFork ≤
       ((rollingTrace ws n).take k).countP RollEvent.isExit + 1) ∧
    (rollingTrace ws n).filterMap RollEvent.exitId = ws.filterMap id ∧
    (rollingTrace ws n).filterMap RollEvent.disconnectId = ws.filterMap id :=
  ⟨(rolling_prefix_counts ws n k).1, (rolling_prefix_counts ws n k).2.1,
   (rolling_prefix_counts ws n k).2.2.1, (rolling_prefix_counts ws n k).2.2.2,
   rollingTrace_exitIds ws n, rollingTrace_disconnectIds ws n⟩


end NodeLogging
